import Mathlib

/-
  Verification of the phone-number identity resolution and the call-session
  state machine of the MedContact telephony PWA.

  Sources embedded here:
  - server/main.go        : normalizePhoneNumber, getCustomerByPhone handler
  - server/schema.sql     : the sqlc queries GetCustomerByPhone / GetAllCustomers
  - src/main.js           : normalizePhoneNumber (client), the dial/incoming
                            background-lookup merge callbacks, the Twilio
                            listeners (onConnected / onDisconnected / onError)
  - src/js/services/CustomerService.js : formatDisplayName / formatCustomerInfo,
                            and the CallStore state machine
  Strings are modelled as `List Char`; timestamps (Date.now()) as `Nat`
  parameters; `setTimeout`-scheduled resets as an explicit returned delay.
-/

namespace MedContact

/-- Character-keep condition of the Go loop in `normalizePhoneNumber`
(server/main.go 689-698): `char >= '0' && char <= '9' || char == '+'`.
The same set of characters survives the client regex replace
`number.replace(/[^\d+]/g, '')` (src/main.js line 72). -/
def keepDigitOrPlus (c : Char) : Bool :=
  (decide ('0' ≤ c) && decide (c ≤ '9')) || (c == '+')

/-- Go `normalizePhoneNumber` (server/main.go 689-698): starts from the empty
string and appends every rune that satisfies the keep condition, in order. -/
def normalizePhoneNumber (phone : List Char) : List Char :=
  phone.foldl (fun normalized c =>
    if keepDigitOrPlus c then normalized ++ [c] else normalized) []

/-- The two sequential rewrites of the client `normalizePhoneNumber`
(src/main.js 74-82): a leading `0` becomes `+27`, and a leading `27`
without `+` gets a `+` prefixed.  The second `if` of the source never fires
after the first one (its output starts with `+`), which the match order
reflects. -/
def countryCodeRule (n : List Char) : List Char :=
  match n with
  | '0' :: rest => '+' :: '2' :: '7' :: rest
  | '2' :: '7' :: rest => '+' :: '2' :: '7' :: rest
  | _ => n

/-- Client `normalizePhoneNumber` (src/main.js 70-85): strip every character
other than digits and `+`, then apply the country-code rewrites. -/
def normalizePhoneNumberJS (number : List Char) : List Char :=
  countryCodeRule (number.filter keepDigitOrPlus)

/-- The formatting characters that the spec names: spaces, hyphens,
parentheses, dots. -/
def isSeparator (c : Char) : Bool :=
  c == ' ' || c == '-' || c == '(' || c == ')' || c == '.'

/-- A customer row as the core uses it: `phone` is a nullable column
(sql.NullString, read only when Valid); `medical_aid_provider` /
`medical_plan` reach the client as the String field of the NullString
JSON object (CustomerService.js reads `.String` without checking Valid). -/
structure Customer where
  firstName : List Char
  lastName : List Char
  phone : Option (List Char)
  medicalAidProvider : List Char
  medicalPlan : List Char
deriving DecidableEq

/-- The sqlc query `GetCustomerByPhone` (schema.sql):
`SELECT * FROM customers WHERE phone = ?` with a non-null parameter, run
against a snapshot of the customers table: the first row whose stored
phone equals the query verbatim (NULL phones never match). -/
def exactLookup (phone : List Char) (dir : List Customer) : Option Customer :=
  dir.find? (fun c => c.phone == some phone)

/-- The fallback scan of the Go handler (server/main.go 471-498): normalize
the input once, walk all customers (the `GetAllCustomers` snapshot), skip
NULL phones, and take the first whose normalized stored phone equals the
normalized query. -/
def normalizedLookup (phone : List Char) (dir : List Customer) : Option Customer :=
  dir.find? (fun c =>
    match c.phone with
    | some p => normalizePhoneNumber p == normalizePhoneNumber phone
    | none => false)

/-- The resolution logic of `getCustomerByPhone` (server/main.go 451-519):
exact match first; only on no-rows does the normalized linear scan run. -/
def getCustomerByPhone (phone : List Char) (dir : List Customer) : Option Customer :=
  match exactLookup phone dir with
  | some c => some c
  | none => normalizedLookup phone dir

/- ------------------------------------------------------------------ -/
/- Helper lemmas on normalization                                     -/
/- ------------------------------------------------------------------ -/

theorem normalize_foldl_eq (acc : List Char) (l : List Char) :
    l.foldl (fun normalized c =>
      if keepDigitOrPlus c then normalized ++ [c] else normalized) acc
      = acc ++ l.filter keepDigitOrPlus := by
  induction l generalizing acc with
  | nil => simp
  | cons c rest ih =>
      by_cases h : keepDigitOrPlus c
      · simp [List.filter_cons, h, ih, List.append_assoc]
      · simp [List.filter_cons, h, ih]

/-- The Go accumulation loop computes exactly the filter that keeps digits
and plus signs. -/
theorem normalize_eq_filter (l : List Char) :
    normalizePhoneNumber l = l.filter keepDigitOrPlus := by
  simpa using normalize_foldl_eq [] l

theorem keep_of_separator (c : Char) (h : isSeparator c = true) :
    keepDigitOrPlus c = false := by
  unfold isSeparator at h
  rcases Bool.or_eq_true_iff.mp h with h' | h'
  · rcases Bool.or_eq_true_iff.mp h' with h'' | h''
    · rcases Bool.or_eq_true_iff.mp h'' with h3 | h3
      · rcases Bool.or_eq_true_iff.mp h3 with h4 | h4
        · rw [eq_of_beq h4]; decide
        · rw [eq_of_beq h4]; decide
      · rw [eq_of_beq h3]; decide
    · rw [eq_of_beq h'']; decide
  · rw [eq_of_beq h']; decide

theorem filter_keep_strip_separators (l : List Char) :
    (l.filter (fun c => !isSeparator c)).filter keepDigitOrPlus
      = l.filter keepDigitOrPlus := by
  rw [List.filter_filter]
  apply List.filter_congr
  intro c _
  by_cases h : isSeparator c
  · simp [h, keep_of_separator c h]
  · simp [h]

/-- Decomposition of a successful linear search: the list splits around the
found element, everything before it failing the predicate. -/
theorem find?_decomp {α : Type} (p : α → Bool) (l : List α) (a : α)
    (h : l.find? p = some a) :
    ∃ l1 l2, l = l1 ++ a :: l2 ∧ (∀ b ∈ l1, p b = false) ∧ p a = true := by
  induction l with
  | nil => simp at h
  | cons x xs ih =>
      by_cases hp : p x
      · rw [List.find?_cons_of_pos _ hp] at h
        obtain rfl : x = a := by injection h
        exact ⟨[], xs, rfl, by simp, hp⟩
      · rw [List.find?_cons_of_neg _ (by simpa using hp)] at h
        obtain ⟨l1, l2, hsplit, hl1, hpa⟩ := ih h
        refine ⟨x :: l1, l2, by rw [hsplit]; rfl, ?_, hpa⟩
        intro b hb
        cases hb with
        | head => simpa using hp
        | tail _ hb => exact hl1 _ hb

/- ------------------------------------------------------------------ -/
/- Concrete data used by witnesses and counterexamples                -/
/- ------------------------------------------------------------------ -/

/-- A directory entry whose stored phone contains a space. -/
def custSpaced : Customer := ⟨['S'], ['S'], some ['0', ' ', '1', '2'], [], []⟩

/-- A directory entry storing the same number without formatting. -/
def custPlain : Customer := ⟨['P'], ['P'], some ['0', '1', '2'], [], []⟩

/-- A two-entry directory in which both entries normalize to `012`. -/
def dir0 : List Customer := [custSpaced, custPlain]

/- ------------------------------------------------------------------ -/
/- C1                                                                 -/
/- ------------------------------------------------------------------ -/

/-- Claim C1: `getCustomerByPhone` tries an exact raw-string match first —
whenever the query is verbatim equal to some entry's stored phone, the
result is an entry stored verbatim as the query — and only when no exact
match exists does it fall back to the normalized linear scan, returning
the first entry (in directory order) whose normalized stored phone equals
the normalized query. -/
theorem C1_resolve_exact_first (q : List Char) (dir : List Customer) :
    ((∃ c ∈ dir, c.phone = some q) →
      ∃ c, getCustomerByPhone q dir = some c ∧ c ∈ dir ∧ c.phone = some q) ∧
    ((∀ c ∈ dir, c.phone ≠ some q) →
      getCustomerByPhone q dir = normalizedLookup q dir ∧
      ∀ c, getCustomerByPhone q dir = some c →
        ∃ l1 l2, dir = l1 ++ c :: l2 ∧
          (∀ b ∈ l1,
            (match b.phone with
             | some p => normalizePhoneNumber p == normalizePhoneNumber q
             | none => false) = false) ∧
          (match c.phone with
           | some p => normalizePhoneNumber p == normalizePhoneNumber q
           | none => false) = true) := by
  constructor
  · rintro ⟨c, hc, hq⟩
    have hsome : (dir.find? (fun c => c.phone == some q)).isSome := by
      rw [List.find?_isSome]
      exact ⟨c, hc, by simp [hq]⟩
    obtain ⟨c', hc'⟩ := Option.isSome_iff_exists.mp hsome
    refine ⟨c', ?_, List.mem_of_find?_eq_some hc', ?_⟩
    · unfold getCustomerByPhone exactLookup
      rw [hc']
    · have := List.find?_some hc'
      simpa using this
  · intro h
    have hnone : exactLookup q dir = none := by
      unfold exactLookup
      rw [List.find?_eq_none]
      intro c hc
      simpa using h c hc
    have hres : getCustomerByPhone q dir = normalizedLookup q dir := by
      unfold getCustomerByPhone
      rw [hnone]
    refine ⟨hres, ?_⟩
    intro c hc
    rw [hres] at hc
    exact find?_decomp _ dir c hc

/-- Witness for C1: in `dir0` both entries normalize to `012`, the first one
(`custSpaced`) stores it with a space, the second (`custPlain`) verbatim;
the query `012` resolves to the exact entry `custPlain`, not to the earlier
normalized-equal entry. -/
theorem C1_resolve_exact_first_witness :
    (∃ c, getCustomerByPhone ['0', '1', '2'] dir0 = some c ∧ c ∈ dir0 ∧
      c.phone = some ['0', '1', '2']) ∧
    getCustomerByPhone ['0', '1', '2'] dir0 = some custPlain :=
  ⟨(C1_resolve_exact_first ['0', '1', '2'] dir0).1
      ⟨custPlain, by decide, by decide⟩,
    by decide⟩

/- ------------------------------------------------------------------ -/
/- C2                                                                 -/
/- ------------------------------------------------------------------ -/

/-- Counterexample to C2 as stated: on the input `1+2` both implementations
keep the non-leading `+`; the output is not the input's digits `12`. -/
theorem C2_counterexample :
    normalizePhoneNumber ['1', '+', '2'] ≠ ['1', '2'] ∧
    normalizePhoneNumberJS ['1', '+', '2'] ≠ ['1', '2'] ∧
    normalizePhoneNumber ['1', '+', '2'] = ['1', '+', '2'] := by
  decide

/-- Claim C2 (amended): normalization keeps every decimal digit and every
`+` of the input — wherever the `+` occurs, not only a leading one — in
their original order, removing all other characters; the resulting
character sequence is a subsequence of the input.  The client variant
applies the same character filter and then the leading `0`/`27`
country-code rewrites. -/
theorem C2_normalize_keeps_digits_and_pluses (s : List Char) :
    normalizePhoneNumber s = s.filter keepDigitOrPlus ∧
    normalizePhoneNumberJS s = countryCodeRule (normalizePhoneNumber s) ∧
    List.Sublist (normalizePhoneNumber s) s := by
  refine ⟨normalize_eq_filter s, ?_, ?_⟩
  · rw [normalizePhoneNumberJS, normalize_eq_filter]
  · rw [normalize_eq_filter]
    exact List.filter_sublist s

/- ------------------------------------------------------------------ -/
/- C3                                                                 -/
/- ------------------------------------------------------------------ -/

/-- Deleting the formatting characters (spaces, hyphens, parentheses, dots)
from a string; two strings "differ only in separators" when their images
under this map coincide. -/
def stripSeparators (l : List Char) : List Char :=
  l.filter (fun c => !isSeparator c)

/-- Claim C3: normalization is idempotent, and two strings that differ only
in spaces, hyphens, parentheses, or dots normalize identically. -/
theorem C3_normalize_idempotent_separator_blind (x y : List Char)
    (h : stripSeparators x = stripSeparators y) :
    normalizePhoneNumber (normalizePhoneNumber x) = normalizePhoneNumber x ∧
    normalizePhoneNumber x = normalizePhoneNumber y := by
  constructor
  · rw [normalize_eq_filter x, normalize_eq_filter, List.filter_filter]
    apply List.filter_congr
    intro c _
    cases hk : keepDigitOrPlus c <;> simp [hk]
  · rw [normalize_eq_filter, normalize_eq_filter,
      ← filter_keep_strip_separators x, ← filter_keep_strip_separators y]
    unfold stripSeparators at h
    rw [h]

/-- Witness for C3 at the concrete pair `0-12.` and `(012)`. -/
theorem C3_normalize_idempotent_separator_blind_witness :
    stripSeparators ['0', '-', '1', '2', '.'] = stripSeparators ['(', '0', '1', '2', ')'] ∧
    (normalizePhoneNumber (normalizePhoneNumber ['0', '-', '1', '2', '.'])
        = normalizePhoneNumber ['0', '-', '1', '2', '.'] ∧
      normalizePhoneNumber ['0', '-', '1', '2', '.']
        = normalizePhoneNumber ['(', '0', '1', '2', ')']) :=
  ⟨by decide,
    C3_normalize_idempotent_separator_blind ['0', '-', '1', '2', '.']
      ['(', '0', '1', '2', ')'] (by decide)⟩

/- ------------------------------------------------------------------ -/
/- CallStore state machine (CustomerService.js CallStore + main.js)   -/
/- ------------------------------------------------------------------ -/

/-- The `state` field of the CallStore state object. -/
inductive Phase where
  | idle
  | incoming
  | outgoing
  | active
  | ended
deriving DecidableEq

/-- The caller-identity object the store carries: `name`, `number`, and the
display fields `location`, `line1`, `line2` used by the UI and the lookup
merge. -/
structure Caller where
  name : List Char
  number : List Char
  location : List Char
  line1 : List Char
  line2 : List Char
deriving DecidableEq

/-- The object stored in `this.state` of the CallStore. -/
structure CallState where
  phase : Phase
  caller : Option Caller
  duration : Nat
  startTime : Option Nat
deriving DecidableEq

/-- The CallStore instance: its `state` object plus the `durationTimer`
field (`true` models a non-null stored interval id). -/
structure CallStore where
  state : CallState
  durationTimer : Bool
deriving DecidableEq

/-- The constructor state (CustomerService.js 78-88). -/
def initialStore : CallStore := ⟨⟨Phase.idle, none, 0, none⟩, false⟩

/-- `receiveCall` (CustomerService.js 118-126): unconditionally replaces the
state object; the `durationTimer` field is not touched. -/
def receiveCall (caller : Caller) (s : CallStore) : CallStore :=
  { s with state := ⟨Phase.incoming, some caller, 0, none⟩ }

/-- The default caller object `initiateCall` builds when no callerInfo is
passed (CustomerService.js 133-138): name and number are the dialed
number, the display lines empty. -/
def defaultCaller (number : List Char) : Caller :=
  ⟨number, number, [], [], []⟩

/-- `initiateCall` (CustomerService.js 131-150): enter `outgoing` with the
provided or default caller.  It also schedules `simulateConnection` to run
2000 ms later; that step is `simulateConnection` below. -/
def initiateCall (number : List Char) (callerInfo : Option Caller)
    (s : CallStore) : CallStore :=
  { s with state := ⟨Phase.outgoing, some (callerInfo.getD (defaultCaller number)), 0, none⟩ }

/-- `startDurationTimer` (CustomerService.js 249-256): store a fresh
interval id (modelled as setting the flag). -/
def startDurationTimer (s : CallStore) : CallStore :=
  { s with durationTimer := true }

/-- `stopDurationTimer` (CustomerService.js 261-266): clear the interval and
null the field. -/
def stopDurationTimer (s : CallStore) : CallStore :=
  { s with durationTimer := false }

/-- The body of the `setTimeout` in `simulateConnection`
(CustomerService.js 155-167), run when the 2-second timer fires with
`now = Date.now()`: only if the phase is still `outgoing` does the session
become `active`, with `startTime := now` and the duration timer started. -/
def simulateConnection (now : Nat) (s : CallStore) : CallStore :=
  if s.state.phase = Phase.outgoing then
    startDurationTimer
      { s with state := { s.state with phase := Phase.active, startTime := some now } }
  else s

/-- `acceptCall` (CustomerService.js 172-182). -/
def acceptCall (now : Nat) (s : CallStore) : CallStore :=
  if s.state.phase = Phase.incoming then
    startDurationTimer
      { s with state := { s.state with phase := Phase.active, startTime := some now } }
  else s

/-- `declineCall` (CustomerService.js 187-200): from `incoming` go to
`ended` and schedule `resetCall` after 2000 ms (the returned delay);
otherwise nothing happens and nothing is scheduled. -/
def declineCall (s : CallStore) : CallStore × Option Nat :=
  if s.state.phase = Phase.incoming then
    ({ s with state := { s.state with phase := Phase.ended } }, some 2000)
  else (s, none)

/-- `endCall` (CustomerService.js 205-231): from `active` stop the duration
timer, go to `ended`, schedule `resetCall` after 2000 ms; from `outgoing`
go to `ended` with a 1000 ms reset; in every other phase do nothing. -/
def endCall (s : CallStore) : CallStore × Option Nat :=
  if s.state.phase = Phase.active then
    ({ (stopDurationTimer s) with
        state := { s.state with phase := Phase.ended } }, some 2000)
  else if s.state.phase = Phase.outgoing then
    ({ s with state := { s.state with phase := Phase.ended } }, some 1000)
  else (s, none)

/-- `resetCall` (CustomerService.js 236-244): back to the idle state object;
the `durationTimer` field is untouched. -/
def resetCall (s : CallStore) : CallStore :=
  { s with state := ⟨Phase.idle, none, 0, none⟩ }

/-- One firing of the interval callback of `startDurationTimer`
(CustomerService.js 250-255): if `startTime` is set (truthy), recompute
`duration` from `now`. -/
def durationTick (now : Nat) (s : CallStore) : CallStore :=
  match s.state.startTime with
  | some t0 => { s with state := { s.state with duration := (now - t0) / 1000 } }
  | none => s

/-- `formatDisplayName` (CustomerService.js 50-53). -/
def formatDisplayName (c : Customer) : List Char :=
  c.firstName ++ ' ' :: c.lastName

/-- The caller-id fields produced by `formatCustomerInfo`
(CustomerService.js 60-68): `line1` is the medical-aid provider string,
`line2` wraps a non-empty plan in parentheses (an empty string is falsy
and yields the empty line). -/
structure CustomerInfo where
  name : List Char
  line1 : List Char
  line2 : List Char
deriving DecidableEq

/-- `formatCustomerInfo` (CustomerService.js 60-68). -/
def formatCustomerInfo (c : Customer) : CustomerInfo :=
  ⟨formatDisplayName c,
    c.medicalAidProvider,
    if c.medicalPlan = [] then [] else '(' :: (c.medicalPlan ++ [')'])⟩

/-- The caller update both merge callbacks perform
(main.js 424-429 and 564-569): spread the current caller and overwrite
`name`, `line1`, `line2` from the formatted customer info.  Spreading a
null caller yields an object with only the three new fields, which the
empty-field default models. -/
def mergeCaller (info : CustomerInfo) (s : CallStore) : CallStore :=
  let base := s.state.caller.getD ⟨[], [], [], [], []⟩
  let merged : Caller :=
    { base with name := info.name, line1 := info.line1, line2 := info.line2 }
  { s with state := { s.state with caller := some merged } }

/-- The `.then` callback of the background lookup issued by `handleDialCall`
(main.js 420-434).  Operator precedence makes the guard
`(customer && state === outgoing) || state === active`.  When the guard
passes with a null customer, `formatCustomerInfo(null)` is null and
reading `.name` throws inside the promise, so the store is untouched
(the `.catch` only logs). -/
def applyDialLookup (customer : Option Customer) (s : CallStore) : CallStore :=
  if (customer.isSome && (s.state.phase == Phase.outgoing))
      || (s.state.phase == Phase.active) then
    match customer with
    | some c => mergeCaller (formatCustomerInfo c) s
    | none => s
  else s

/-- The `.then` callback of the background lookup issued by the `onIncoming`
listener (main.js 560-574): applied only when a customer was found and the
phase is still `incoming`. -/
def applyIncomingLookup (customer : Option Customer) (s : CallStore) : CallStore :=
  if customer.isSome && (s.state.phase == Phase.incoming) then
    match customer with
    | some c => mergeCaller (formatCustomerInfo c) s
    | none => s
  else s

/-- The `onConnected` Twilio listener (main.js 576-578): it only logs; the
store is not touched. -/
def onConnected (s : CallStore) : CallStore := s

/-- The `onDisconnected` Twilio listener (main.js 579-582): it calls
`callStore.endCall()`. -/
def onDisconnected (s : CallStore) : CallStore × Option Nat := endCall s

/-- The `onError` Twilio listener (main.js 583-586): it logs and alerts; the
store is not touched. -/
def onError (s : CallStore) : CallStore := s

/-- The events that drive the store: user actions, transport events, timer
firings, and completing background lookups. -/
inductive Event where
  | receive (caller : Caller)
  | dial (number : List Char) (callerInfo : Option Caller)
  | simConnect (now : Nat)
  | accept (now : Nat)
  | decline
  | hangup
  | remoteDisconnect
  | reset
  | tick (now : Nat)
  | dialLookup (customer : Option Customer)
  | incomingLookup (customer : Option Customer)
  | connectedEvt
  | errorEvt

/-- The effect of one event on the store. -/
def stepEv (e : Event) (s : CallStore) : CallStore :=
  match e with
  | Event.receive c => receiveCall c s
  | Event.dial n ci => initiateCall n ci s
  | Event.simConnect now => simulateConnection now s
  | Event.accept now => acceptCall now s
  | Event.decline => (declineCall s).1
  | Event.hangup => (endCall s).1
  | Event.remoteDisconnect => (onDisconnected s).1
  | Event.reset => resetCall s
  | Event.tick now => durationTick now s
  | Event.dialLookup c => applyDialLookup c s
  | Event.incomingLookup c => applyIncomingLookup c s
  | Event.connectedEvt => onConnected s
  | Event.errorEvt => onError s

/-- The store after a sequence of events from the initial state. -/
def run (es : List Event) : CallStore :=
  es.foldl (fun s e => stepEv e s) initialStore

/- ------------------------------------------------------------------ -/
/- Reachability invariant machinery                                   -/
/- ------------------------------------------------------------------ -/

/-- The caller/phase linkage that actually holds in every reachable state:
the caller object is absent exactly in the `idle` phase. -/
def callerPhaseInv (s : CallStore) : Prop :=
  s.state.caller = none ↔ s.state.phase = Phase.idle

theorem stepEv_preserves_callerPhaseInv (e : Event) (s : CallStore)
    (h : callerPhaseInv s) : callerPhaseInv (stepEv e s) := by
  unfold callerPhaseInv at *
  cases e with
  | receive c => simp [stepEv, receiveCall]
  | dial n ci => simp [stepEv, initiateCall]
  | simConnect now =>
      simp only [stepEv, simulateConnection, startDurationTimer]
      split
      · next hout => simp_all
      · exact h
  | accept now =>
      simp only [stepEv, acceptCall, startDurationTimer]
      split
      · next hin => simp_all
      · exact h
  | decline =>
      simp only [stepEv, declineCall]
      split
      · next hin => simp_all
      · exact h
  | hangup =>
      simp only [stepEv, endCall, stopDurationTimer]
      split
      · next hact => simp_all
      · split
        · next hout => simp_all
        · exact h
  | remoteDisconnect =>
      simp only [stepEv, onDisconnected, endCall, stopDurationTimer]
      split
      · next hact => simp_all
      · split
        · next hout => simp_all
        · exact h
  | reset => simp [stepEv, resetCall]
  | tick now =>
      simp only [stepEv, durationTick]
      split
      · next t0 ht => simp_all
      · exact h
  | dialLookup cust =>
      simp only [stepEv, applyDialLookup]
      split
      · next hcond =>
          cases cust with
          | some c =>
              simp only [mergeCaller]
              simp only [Bool.or_eq_true, Bool.and_eq_true, beq_iff_eq] at hcond
              rcases hcond with ⟨-, hp⟩ | hp <;> simp_all
          | none => exact h
      · exact h
  | incomingLookup cust =>
      simp only [stepEv, applyIncomingLookup]
      split
      · next hcond =>
          cases cust with
          | some c =>
              simp only [mergeCaller]
              simp only [Bool.and_eq_true, beq_iff_eq] at hcond
              simp_all
          | none => exact h
      · exact h
  | connectedEvt => exact h
  | errorEvt => exact h

theorem foldl_preserves_callerPhaseInv (es : List Event) (s : CallStore)
    (h : callerPhaseInv s) :
    callerPhaseInv (es.foldl (fun s e => stepEv e s) s) := by
  induction es generalizing s with
  | nil => exact h
  | cons e rest ih => exact ih _ (stepEv_preserves_callerPhaseInv e s h)

/- ------------------------------------------------------------------ -/
/- Concrete stores used by witnesses and counterexamples              -/
/- ------------------------------------------------------------------ -/

/-- The caller object of a concrete inbound ring. -/
def caller0 : Caller := ⟨['B'], ['B'], [], [], []⟩

/-- A concrete directory customer used as a lookup result. -/
def custA : Customer := ⟨['A'], ['L'], some ['9', '9'], [], []⟩

/-- A store showing an incoming call. -/
def sInc : CallStore := run [Event.receive caller0]

/-- A store with an outgoing call being placed. -/
def sOut : CallStore := run [Event.dial ['7'] none]

/-- A store with an accepted, active call. -/
def sAct : CallStore := run [Event.receive caller0, Event.accept 1000]

/-- A store whose incoming call was declined (phase `ended`). -/
def sEnded : CallStore := run [Event.receive caller0, Event.decline]

/-- The run behind the C5 counterexample: an outgoing call to `7` is placed
(a background dial lookup is issued here), cancelled, reset to idle, and
then a brand-new incoming call from `B` arrives and is accepted. -/
def ev5 : List Event :=
  [Event.dial ['7'] none, Event.hangup, Event.reset,
   Event.receive caller0, Event.accept 5000]

/- ------------------------------------------------------------------ -/
/- C4                                                                 -/
/- ------------------------------------------------------------------ -/

/-- Counterexample to C4 as stated: declining an incoming call reaches
phase `ended` with the caller still present — `declineCall` does not clear
`caller`; only `resetCall` does. -/
theorem C4_counterexample :
    (run [Event.receive caller0, Event.decline]).state.phase = Phase.ended ∧
    (run [Event.receive caller0, Event.decline]).state.caller ≠ none := by
  decide

/-- Claim C4 (amended): in every state reachable by the CallSession
operations from the initial idle state, `caller` is non-null whenever the
phase is `incoming`, `outgoing`, `active` or `ended`, and is null exactly
when the phase is `idle` (the `ended` phase keeps the caller until the
grace-delay reset). -/
theorem C4_caller_phase_invariant (es : List Event) :
    (run es).state.caller = none ↔ (run es).state.phase = Phase.idle :=
  foldl_preserves_callerPhaseInv es initialStore
    (by simp [callerPhaseInv, initialStore])

/- ------------------------------------------------------------------ -/
/- C5                                                                 -/
/- ------------------------------------------------------------------ -/

/-- Counterexample to C5 as stated: the dial lookup issued for the first
(outgoing) session completes after that session ended, was reset, and was
replaced by a new incoming-then-active session; the guard only checks the
current phase (`active` passes), so the stale result overwrites the new
session's caller — cross-session leakage. -/
theorem C5_counterexample :
    (run ev5).state.phase = Phase.active ∧
    (run ev5).state.caller = some ⟨['B'], ['B'], [], [], []⟩ ∧
    applyDialLookup (some custA) (run ev5) ≠ run ev5 ∧
    (applyDialLookup (some custA) (run ev5)).state.caller
      = some ⟨['A', ' ', 'L'], ['B'], [], [], []⟩ := by
  decide

/-- Claim C5 (amended): a completing background lookup is discarded when the
session's phase at completion time is `idle` or `ended` — in particular a
resolve completing after the session ended leaves the store untouched —
but replacement by a newer session is not detected: the merge guards test
only the current phase, so a stale result is applied to any newer session
whose phase passes the guard. -/
theorem C5_lookup_discarded_when_idle_or_ended (cust : Option Customer)
    (s : CallStore)
    (h : s.state.phase = Phase.idle ∨ s.state.phase = Phase.ended) :
    applyDialLookup cust s = s ∧ applyIncomingLookup cust s = s := by
  unfold applyDialLookup applyIncomingLookup
  rcases h with h | h <;> rw [h] <;> cases cust <;> simp

/-- Witness for C5 (amended) at a store whose incoming call was declined. -/
theorem C5_lookup_discarded_when_idle_or_ended_witness :
    applyDialLookup (some custA) sEnded = sEnded ∧
    applyIncomingLookup (some custA) sEnded = sEnded :=
  C5_lookup_discarded_when_idle_or_ended (some custA) sEnded (Or.inr (by decide))

/- ------------------------------------------------------------------ -/
/- C6                                                                 -/
/- ------------------------------------------------------------------ -/

/-- Counterexample to C6 as stated: the session reaches `active` through the
simulated-connection timeout alone — the trace contains no remote-answer
event — and the remote-answer listener (`onConnected`) leaves the store
unchanged, so the transition neither requires nor follows the remote
party answering. -/
theorem C6_counterexample :
    (run [Event.dial ['7'] none, Event.simConnect 2000]).state.phase
      = Phase.active ∧
    onConnected (run [Event.dial ['7'] none]) = run [Event.dial ['7'] none] := by
  decide

/-- Claim C6 (amended): from `outgoing` the session transitions to `active`
when the simulated-connection timeout fires (scheduled 2 s after
initiation) and the phase is still `outgoing`; the transition records
`startTime := now` and starts the duration timer.  If the phase is no
longer `outgoing` the timeout does nothing, and the transport's connected
event never changes the store. -/
theorem C6_simulated_connection (s : CallStore) (now : Nat) :
    (s.state.phase = Phase.outgoing →
      simulateConnection now s =
        ⟨⟨Phase.active, s.state.caller, s.state.duration, some now⟩, true⟩) ∧
    (s.state.phase ≠ Phase.outgoing → simulateConnection now s = s) ∧
    onConnected s = s := by
  refine ⟨?_, ?_, rfl⟩
  · intro h
    simp [simulateConnection, h, startDurationTimer]
  · intro h
    simp [simulateConnection, h]

/-- Witness for C6 (amended): the timeout fires on a placed outgoing call
(transitioning it to `active`) and does nothing on an incoming call. -/
theorem C6_simulated_connection_witness :
    simulateConnection 2000 sOut =
      ⟨⟨Phase.active, sOut.state.caller, sOut.state.duration, some 2000⟩, true⟩ ∧
    simulateConnection 2000 sInc = sInc ∧
    onConnected sOut = sOut :=
  ⟨(C6_simulated_connection sOut 2000).1 (by decide),
    (C6_simulated_connection sInc 2000).2.1 (by decide),
    (C6_simulated_connection sOut 2000).2.2⟩

/- ------------------------------------------------------------------ -/
/- C7                                                                 -/
/- ------------------------------------------------------------------ -/

/-- Counterexample to C7 as stated: a remote cancel of an incoming call is
routed to `endCall`, which acts only on `active` or `outgoing`; the
session stays `incoming` — the whole store is unchanged — instead of
transitioning to `ended`. -/
theorem C7_counterexample :
    (run [Event.receive caller0, Event.remoteDisconnect]).state.phase
      = Phase.incoming ∧
    run [Event.receive caller0, Event.remoteDisconnect]
      = run [Event.receive caller0] := by
  decide

/-- Claim C7 (amended): from `incoming`, a user decline transitions the
session to `ended`; a remote cancel (the transport disconnect event,
routed to `endCall`) leaves an incoming session unchanged. -/
theorem C7_decline_ends_remote_cancel_ignored (s : CallStore)
    (h : s.state.phase = Phase.incoming) :
    (declineCall s).1.state.phase = Phase.ended ∧ (onDisconnected s).1 = s := by
  constructor
  · simp [declineCall, h]
  · simp [onDisconnected, endCall, h]

/-- Witness for C7 (amended) at the concrete incoming store. -/
theorem C7_decline_ends_remote_cancel_ignored_witness :
    (declineCall sInc).1.state.phase = Phase.ended ∧
    (onDisconnected sInc).1 = sInc :=
  C7_decline_ends_remote_cancel_ignored sInc (by decide)

/- ------------------------------------------------------------------ -/
/- C8                                                                 -/
/- ------------------------------------------------------------------ -/

/-- Claim C8: every transition into `ended` schedules the reset — 1000 ms
when `ended` is reached by cancelling an outgoing call, 2000 ms from
`incoming` (decline) and from `active` (end) — and the reset produces the
idle state with `caller := null`, `duration := 0`, `startTime := null`. -/
theorem C8_grace_delay (s : CallStore) :
    (s.state.phase = Phase.incoming →
      (declineCall s).1.state.phase = Phase.ended ∧
      (declineCall s).2 = some 2000) ∧
    (s.state.phase = Phase.active →
      (endCall s).1.state.phase = Phase.ended ∧ (endCall s).2 = some 2000) ∧
    (s.state.phase = Phase.outgoing →
      (endCall s).1.state.phase = Phase.ended ∧ (endCall s).2 = some 1000) ∧
    (resetCall s).state = ⟨Phase.idle, none, 0, none⟩ := by
  refine ⟨?_, ?_, ?_, rfl⟩ <;> intro h <;> simp [declineCall, endCall, h]

/-- Witness for C8 at the three concrete stores. -/
theorem C8_grace_delay_witness :
    ((declineCall sInc).1.state.phase = Phase.ended ∧
      (declineCall sInc).2 = some 2000) ∧
    ((endCall sAct).1.state.phase = Phase.ended ∧
      (endCall sAct).2 = some 2000) ∧
    ((endCall sOut).1.state.phase = Phase.ended ∧
      (endCall sOut).2 = some 1000) :=
  ⟨(C8_grace_delay sInc).1 (by decide),
    (C8_grace_delay sAct).2.1 (by decide),
    (C8_grace_delay sOut).2.2.1 (by decide)⟩

/- ------------------------------------------------------------------ -/
/- C9                                                                 -/
/- ------------------------------------------------------------------ -/

/-- Counterexample to C9 as stated: the device/connection error listener
leaves an outgoing session untouched — the phase stays `outgoing`, never
`ended` — and the failed-dial handler resets the session to `idle`, not
`ended`. -/
theorem C9_counterexample :
    onError sOut = sOut ∧ sOut.state.phase = Phase.outgoing ∧
    (resetCall sOut).state.phase = Phase.idle := by
  decide

/-- Claim C9 (amended): a transport error event performs no state
transition at all — `onError` only alerts, leaving the store unchanged,
so observers receive no state-change notification for it — and a failed
outbound connection attempt is handled in the dial routine by resetting
the session straight to `idle` (never `ended`), which observers do see
through the normal state-change channel. -/
theorem C9_error_leaves_state (s : CallStore) :
    onError s = s ∧ (resetCall s).state.phase = Phase.idle ∧
    (resetCall s).state.phase ≠ Phase.ended := by
  refine ⟨rfl, rfl, ?_⟩
  simp [resetCall]

/- ------------------------------------------------------------------ -/
/- C10                                                                -/
/- ------------------------------------------------------------------ -/

/-- Claim C10: `receiveCall` is unconditional — whatever the current state,
including an active call with a running duration ticker, it replaces the
state object with `{incoming, the given caller, duration 0, no start
time}` and leaves the `durationTimer` field exactly as it was (no timer is
cancelled). -/
theorem C10_receiveCall_unconditional (s : CallStore) (c : Caller) :
    receiveCall c s = ⟨⟨Phase.incoming, some c, 0, none⟩, s.durationTimer⟩ :=
  rfl

end MedContact
